import Mathlib

/-!
# agroManager — verification of the authentication core and ownership scoping

Shallow embedding of `src/backend/auth.py`, the ownership-scoped service
handlers (`cultura_service.py`, `producao_service.py`, `estoque_service.py`)
and the statistics endpoint (`stats_service.py`, `filtro_service.py`).

Modelling conventions:
* Times (both `datetime.utcnow()` instants and `date` values) are `Nat`
  seconds / days; token expiry comparison follows PyJWT, which rejects a
  token exactly when `exp <= now` (leeway 0).
* The JWT signature produced by `jwt.encode(payload, SECRET_KEY, ALGORITHM)`
  is modelled symbolically (ideal-MAC style): a signature is the pair
  `(secret, claims)`; `jwt.decode` succeeds exactly when the token's
  signature equals the pair formed from the verifier's secret and the
  token's own claims.  This captures that HMAC verification fails whenever
  either the key or the signed payload differs.
* The module-level mutable `BLACKLIST` set is passed explicitly as a
  `List Token` treated as a set (insertion is guarded by membership).
* `hashlib.sha256(senha.encode()).hexdigest()` is modelled by a full
  SHA-256 implementation over `Nat` byte lists plus UTF-8 encoding and a
  fixed 64-character lowercase hex rendering.
* SQLAlchemy queries over a table become functions over a `List` of rows;
  `.filter(...).first()` is `List.find?` with the conjunction of the
  filter predicates; row mutation plus `commit` replaces the first
  matching row; `db.delete` removes the first matching row.
-/

/-! ## SHA-256 over byte lists (model of `hashlib.sha256(...).hexdigest()`) -/

/-- 32-bit right rotation on `Nat` values below `2^32`. -/
def rotr32 (n x : Nat) : Nat :=
  ((x >>> n) ||| ((x % 2 ^ 32) <<< (32 - n))) % 2 ^ 32

/-- SHA-256 round constants (decimal). -/
def sha256K : List Nat :=
  [1116352408, 1899447441, 3049323471, 3921009573, 961987163, 1508970993,
   2453635748, 2870763221, 3624381080, 310598401, 607225278, 1426881987,
   1925078388, 2162078206, 2614888103, 3248222580, 3835390401, 4022224774,
   264347078, 604807628, 770255983, 1249150122, 1555081692, 1996064986,
   2554220882, 2821834349, 2952996808, 3210313671, 3336571891, 3584528711,
   113926993, 338241895, 666307205, 773529912, 1294757372, 1396182291,
   1695183700, 1986661051, 2177026350, 2456956037, 2730485921, 2820302411,
   3259730800, 3345764771, 3516065817, 3600352804, 4094571909, 275423344,
   430227734, 506948616, 659060556, 883997877, 958139571, 1322822218,
   1537002063, 1747873779, 1955562222, 2024104815, 2227730452, 2361852424,
   2428436474, 2756734187, 3204031479, 3329325298]

/-- Big-endian rendering of `v` as `n` bytes. -/
def beBytes (n v : Nat) : List Nat :=
  (List.range n).map (fun i => (v >>> (8 * (n - 1 - i))) % 256)

/-- SHA-256 padding: append `0x80`, zero bytes up to 56 mod 64, then the
bit length as 8 big-endian bytes. -/
def sha256Pad (msg : List Nat) : List Nat :=
  let k := (64 + 56 - ((msg.length + 1) % 64)) % 64
  msg ++ [0x80] ++ List.replicate k 0 ++ beBytes 8 (msg.length * 8)

/-- Split a byte list into 64-byte blocks. -/
def chunks64 : List Nat → List (List Nat)
  | [] => []
  | a :: rest =>
      ((a :: rest).take 64) :: chunks64 ((a :: rest).drop 64)
  termination_by l => l.length
  decreasing_by
    simp only [List.length_drop, List.length_cons]
    omega

/-- Big-endian 32-bit word from a byte list. -/
def beWord (b : List Nat) : Nat :=
  b.foldl (fun a x => a * 256 + x) 0

/-- The 16 initial message-schedule words of a 64-byte block. -/
def blockWords (block : List Nat) : List Nat :=
  (List.range 16).map (fun i => beWord ((block.drop (4 * i)).take 4))

def sigma0 (x : Nat) : Nat := (rotr32 7 x) ^^^ (rotr32 18 x) ^^^ (x >>> 3)

def sigma1 (x : Nat) : Nat := (rotr32 17 x) ^^^ (rotr32 19 x) ^^^ (x >>> 10)

/-- Extend the 16 block words to the 64-entry message schedule. -/
def extendW (w : List Nat) : List Nat :=
  (List.range 48).foldl
    (fun acc _ =>
      let n := acc.length
      acc ++ [(acc.getD (n - 16) 0 + sigma0 (acc.getD (n - 15) 0) +
               acc.getD (n - 7) 0 + sigma1 (acc.getD (n - 2) 0)) % 2 ^ 32])
    w

/-- The eight 32-bit working variables of the SHA-256 compression loop. -/
structure Hash8 where
  a : Nat
  b : Nat
  c : Nat
  d : Nat
  e : Nat
  f : Nat
  g : Nat
  h : Nat
deriving DecidableEq

def sha256Init : Hash8 :=
  ⟨1779033703, 3144134277, 1013904242, 2773480762,
   1359893119, 2600822924, 528734635, 1541459225⟩

def bigSigma0 (x : Nat) : Nat := (rotr32 2 x) ^^^ (rotr32 13 x) ^^^ (rotr32 22 x)

def bigSigma1 (x : Nat) : Nat := (rotr32 6 x) ^^^ (rotr32 11 x) ^^^ (rotr32 25 x)

def chFn (x y z : Nat) : Nat := (x &&& y) ^^^ ((x ^^^ 0xffffffff) &&& z)

def majFn (x y z : Nat) : Nat := (x &&& y) ^^^ (x &&& z) ^^^ (y &&& z)

/-- One SHA-256 round: `kw` is the pair (round constant, schedule word). -/
def compressStep (st : Hash8) (kw : Nat × Nat) : Hash8 :=
  let t1 := (st.h + bigSigma1 st.e + chFn st.e st.f st.g + kw.1 + kw.2) % 2 ^ 32
  let t2 := (bigSigma0 st.a + majFn st.a st.b st.c) % 2 ^ 32
  ⟨(t1 + t2) % 2 ^ 32, st.a, st.b, st.c, (st.d + t1) % 2 ^ 32, st.e, st.f, st.g⟩

/-- Process one 64-byte block against the running hash value. -/
def processBlock (hv : Hash8) (block : List Nat) : Hash8 :=
  let w := extendW (blockWords block)
  let s := (sha256K.zip w).foldl compressStep hv
  ⟨(hv.a + s.a) % 2 ^ 32, (hv.b + s.b) % 2 ^ 32, (hv.c + s.c) % 2 ^ 32,
   (hv.d + s.d) % 2 ^ 32, (hv.e + s.e) % 2 ^ 32, (hv.f + s.f) % 2 ^ 32,
   (hv.g + s.g) % 2 ^ 32, (hv.h + s.h) % 2 ^ 32⟩

/-- Lowercase hex digit. -/
def hexDigit (n : Nat) : Char :=
  if n < 10 then Char.ofNat (48 + n) else Char.ofNat (87 + n)

/-- Fixed-width 8-hex-digit rendering of a 32-bit word. -/
def hex8 (v : Nat) : List Char :=
  (List.range 8).map (fun i => hexDigit ((v >>> (4 * (7 - i))) % 16))

/-- SHA-256 hex digest of a byte list. -/
def sha256hex (msg : List Nat) : String :=
  let hv := (chunks64 (sha256Pad msg)).foldl processBlock sha256Init
  String.mk (hex8 hv.a ++ hex8 hv.b ++ hex8 hv.c ++ hex8 hv.d ++
             hex8 hv.e ++ hex8 hv.f ++ hex8 hv.g ++ hex8 hv.h)

/-- UTF-8 encoding of one character (model of Python `str.encode()`). -/
def utf8EncodeChar (c : Char) : List Nat :=
  let n := c.toNat
  if n < 0x80 then [n]
  else if n < 0x800 then [0xc0 + n / 64, 0x80 + n % 64]
  else if n < 0x10000 then
    [0xe0 + n / 4096, 0x80 + (n / 64) % 64, 0x80 + n % 64]
  else
    [0xf0 + n / 262144, 0x80 + (n / 4096) % 64, 0x80 + (n / 64) % 64,
     0x80 + n % 64]

/-- UTF-8 byte sequence of a string. -/
def utf8Encode (s : String) : List Nat :=
  (s.data.map utf8EncodeChar).flatten

/-- `auth.gerar_hash`: SHA-256 hex digest of the UTF-8 encoded password. -/
def gerar_hash (senha : String) : String :=
  sha256hex (utf8Encode senha)

/-! ## Token Authority (`src/backend/auth.py`) -/

/-- The JWT claim set built by `create_access_token`: `sub` (email) and
`user_id` may be absent from an arbitrary presented token, `exp` is the
numeric expiry timestamp added before signing. -/
structure Claims where
  sub : Option String
  user_id : Option Nat
  exp : Nat
deriving DecidableEq

/-- A serialized JWT: its claim segment plus its signature segment.  The
signature is modelled symbolically as the pair (signing secret, signed
claims): `jwt.decode` accepts exactly when this pair matches the
verifier's secret and the token's own claims. -/
structure Token where
  claims : Claims
  sig : String × Claims
deriving DecidableEq

/-- The dict returned by a successful `verify_token`. -/
structure Payload where
  email : String
  user_id : Nat
deriving DecidableEq

/-- The two per-request failure outcomes of `verify_token`
(HTTP 401 with detail "Token inválido" / "Token expirado"). -/
inductive AuthError where
  | InvalidToken
  | ExpiredToken
deriving DecidableEq

/-- Symbolic `jwt.encode` signature over the claim set. -/
def mkSignature (secret : String) (c : Claims) : String × Claims :=
  (secret, c)

/-- `auth.create_access_token` applied to `{"sub": email, "user_id": uid}`:
sets `exp = now + lifetime` and signs with the configured secret.
`lifetime` stands for `expires_delta or timedelta(minutes=settings.ACCESS_TOKEN_EXPIRE_MINUTES)`
in seconds. -/
def create_access_token (secret : String) (now lifetime : Nat)
    (email : String) (uid : Nat) : Token :=
  let c : Claims := { sub := some email, user_id := some uid, exp := now + lifetime }
  { claims := c, sig := mkSignature secret c }

/-- `auth.logout`: `BLACKLIST.add(token)` (set insertion, hence guarded by
membership) and the constant success message it returns. -/
def logout (bl : List Token) (token : Token) : List Token × String :=
  (if token ∈ bl then bl else token :: bl, "Logout realizado com sucesso.")

/-- `auth.verify_token` on blacklist `bl` at time `now`, checks in source
order: (1) `token in BLACKLIST`; (2) signature, inside `jwt.decode`;
(3) expiry, PyJWT raises `ExpiredSignatureError` iff `exp <= now`;
(4) required fields — Python `if not email or not user_id` rejects the
falsy values `None`, `""` and `0` alike. -/
def verify_token (secret : String) (bl : List Token) (token : Token)
    (now : Nat) : Except AuthError Payload :=
  if token ∈ bl then .error .InvalidToken
  else if token.sig ≠ mkSignature secret token.claims then .error .InvalidToken
  else if token.claims.exp ≤ now then .error .ExpiredToken
  else
    match token.claims.sub, token.claims.user_id with
    | some email, some uid =>
        if email = "" ∨ uid = 0 then .error .InvalidToken
        else .ok { email := email, user_id := uid }
    | _, _ => .error .InvalidToken

/-! ## Credential store and login (`models.Usuario`, `auth.authenticate_user`, `auth.login`) -/

/-- `models.Usuario` row (the `data_criacao` timestamp column is omitted;
no modelled operation reads it).  `senha` stores the password digest. -/
structure Usuario where
  id : Nat
  nome : String
  cpf : String
  email : String
  senha : String
deriving DecidableEq

/-- `auth.authenticate_user`: first user whose email matches; `None` when
absent or when the stored digest differs from the hash of the candidate. -/
def authenticate_user (db : List Usuario) (email senha : String) :
    Option Usuario :=
  match db.find? (fun u => u.email == email) with
  | none => none
  | some user => if user.senha ≠ gerar_hash senha then none else some user

/-- Observable outcome of the `/auth/login` endpoint. -/
inductive LoginResult where
  | success (access_token : Token) (token_type : String)
  | unauthorized (detail : String)
deriving DecidableEq

/-- `auth.login`: authenticate, then issue a token over
`{"sub": user.email, "user_id": user.id}`; on failure raise 401 with the
generic detail "Credenciais incorretas". -/
def login (secret : String) (now lifetime : Nat) (db : List Usuario)
    (username password : String) : LoginResult :=
  match authenticate_user db username password with
  | none => .unauthorized "Credenciais incorretas"
  | some user =>
      .success (create_access_token secret now lifetime user.email user.id)
        "bearer"

/-! ## Ownership-scoped service handlers -/

/-- `models.Cultura` row (`data_criacao`-style timestamp columns omitted
throughout; no modelled operation reads them). -/
structure Cultura where
  id : Nat
  nome : String
  descricao : Option String
  usuario_id : Nat
deriving DecidableEq

/-- `models.Producao` row; `quantidade` is `Numeric(10,2)`, modelled in ℚ;
`data_colheita` is a `date`, modelled as `Nat`. -/
structure Producao where
  id : Nat
  usuario_id : Nat
  cultura_id : Nat
  quantidade : ℚ
  data_colheita : Nat
deriving DecidableEq

/-- `models.Estoque` row. -/
structure Estoque where
  id : Nat
  produto_nome : String
  quantidade_estoque : ℚ
  validade : Option Nat
  fornecedor : Option String
  usuario_id : Nat
deriving DecidableEq

/-- The `EstoqueCreate` request body of `PUT /estoque/{item_id}`. -/
structure EstoqueCreate where
  produto_nome : String
  quantidade_estoque : ℚ
  validade : Option Nat
  fornecedor : Option String
deriving DecidableEq

/-- Replace the first list element satisfying `p` (SQLAlchemy: mutate the
row returned by `.first()` and commit). -/
def replaceFirst (p : α → Bool) (v : α) : List α → List α
  | [] => []
  | x :: xs => if p x then v :: xs else x :: replaceFirst p v xs

/-- Remove the first list element satisfying `p` (SQLAlchemy:
`db.delete(row)` on the row returned by `.first()`). -/
def deleteFirst (p : α → Bool) : List α → List α
  | [] => []
  | x :: xs => if p x then xs else x :: deleteFirst p xs

/-- `cultura_service.obter_cultura`:
`query(Cultura).filter(id == cultura_id, usuario_id == current_user["user_id"]).first()`,
404 when no row matches. -/
def obter_cultura (db : List Cultura) (uid cultura_id : Nat) :
    Except Nat Cultura :=
  match db.find? (fun c => c.id == cultura_id && c.usuario_id == uid) with
  | none => .error 404
  | some c => .ok c

/-- `producao_service.obter_producao`: same ownership-scoped lookup for a
production record. -/
def obter_producao (db : List Producao) (uid producao_id : Nat) :
    Except Nat Producao :=
  match db.find? (fun p => p.id == producao_id && p.usuario_id == uid) with
  | none => .error 404
  | some p => .ok p

/-- `estoque_service.atualizar_item`: ownership-scoped lookup, 404 when
absent, otherwise `setattr` of every `EstoqueCreate` field on the found
row and commit; returns the new table and the refreshed row. -/
def atualizar_item (db : List Estoque) (uid item_id : Nat)
    (dados : EstoqueCreate) : Except Nat (List Estoque × Estoque) :=
  match db.find? (fun e => e.id == item_id && e.usuario_id == uid) with
  | none => .error 404
  | some item =>
      let updated : Estoque :=
        { item with
          produto_nome := dados.produto_nome
          quantidade_estoque := dados.quantidade_estoque
          validade := dados.validade
          fornecedor := dados.fornecedor }
      .ok (replaceFirst (fun e => e.id == item_id && e.usuario_id == uid)
             updated db,
           updated)

/-- `estoque_service.deletar_item`: ownership-scoped lookup, 404 when
absent, otherwise delete the found row. -/
def deletar_item (db : List Estoque) (uid item_id : Nat) :
    Except Nat (List Estoque) :=
  match db.find? (fun e => e.id == item_id && e.usuario_id == uid) with
  | none => .error 404
  | some _ =>
      .ok (deleteFirst (fun e => e.id == item_id && e.usuario_id == uid) db)

/-! ## String helpers (Python `str.strip()`, `str.lower()`, SQL `ILIKE`) -/

/-- Python `str.lower()` (character-wise, adequate for the modelled
comparisons). -/
def strLower (s : String) : String :=
  String.mk (s.data.map Char.toLower)

/-- The whitespace characters Python `str.strip()` removes. -/
def pyWhitespace (c : Char) : Bool :=
  c = ' ' || c = '\t' || c = '\n' || c = '\r' || c = '\x0b' || c = '\x0c'

/-- Python `str.strip()`. -/
def pyStrip (s : String) : String :=
  String.mk
    (((s.data.dropWhile pyWhitespace).reverse.dropWhile pyWhitespace).reverse)

/-- Does the first list start with the second? -/
def startsWithSeq : List Char → List Char → Bool
  | _, [] => true
  | [], _ :: _ => false
  | a :: as, b :: bs => a == b && startsWithSeq as bs

/-- Does the first list contain the second as a contiguous run? -/
def containsSeq : List Char → List Char → Bool
  | [], pat => startsWithSeq [] pat
  | a :: rest, pat => startsWithSeq (a :: rest) pat || containsSeq rest pat

/-- SQL `col ILIKE '%pat%'`: case-insensitive substring containment. -/
def ilike (col pat : String) : Bool :=
  containsSeq (strLower col).data (strLower pat).data

/-- The `if opt:` + `query.filter(f(opt))` pattern of the list endpoints:
Python truthiness means `None` and the empty string both skip the
filter. -/
def optFilter {α : Type} (f : String → α → Bool) :
    Option String → List α → List α
  | some s, q => if s = "" then q else q.filter (f s)
  | none, q => q

/-! ## Remaining ownership-scoped handlers -/

/-- `cultura_service.atualizar_cultura`: ownership-scoped lookup (404 when
absent); duplicate-name check among the user's OTHER cultures — 400 only
when the `ilike`-found row's normalized (`strip().lower()`) name equals
the new normalized name; otherwise rename the found row to the stripped
name and commit. -/
def atualizar_cultura (db : List Cultura) (uid cultura_id : Nat)
    (nome : String) : Except Nat (List Cultura × Cultura) :=
  match db.find? (fun c => c.id == cultura_id && c.usuario_id == uid) with
  | none => .error 404
  | some cultura =>
      let novo := strLower (pyStrip nome)
      let conflito :=
        match db.find? (fun c => ilike c.nome novo && c.usuario_id == uid
            && c.id != cultura_id) with
        | some outra => strLower (pyStrip outra.nome) == novo
        | none => false
      if conflito then .error 400
      else
        let updated := { cultura with nome := pyStrip nome }
        .ok (replaceFirst (fun c => c.id == cultura_id && c.usuario_id == uid)
               updated db, updated)

/-- `cultura_service.excluir_cultura`: ownership-scoped lookup (404 when
absent); the join with `Cultura.producoes` blocks deletion (400) when any
production references the culture; otherwise delete the found row. -/
def excluir_cultura (dbc : List Cultura) (dbp : List Producao)
    (uid cultura_id : Nat) : Except Nat (List Cultura) :=
  match dbc.find? (fun c => c.id == cultura_id && c.usuario_id == uid) with
  | none => .error 404
  | some _ =>
      if dbp.any (fun p => p.cultura_id == cultura_id) then .error 400
      else
        .ok (deleteFirst (fun c => c.id == cultura_id && c.usuario_id == uid)
          dbc)

/-- The `ProducaoCreate` request body of `PUT /producoes/{producao_id}`. -/
structure ProducaoCreate where
  cultura_id : Nat
  quantidade : ℚ
  data_colheita : Nat
deriving DecidableEq

/-- `producao_service.atualizar_producao`: ownership-scoped lookup (404
when absent); when the culture changes, an ownership check of the new
culture (400); quantity positivity (400); no future harvest against
`date.today()`, passed as `today` (400); then update the three fields on
the found row and commit. -/
def atualizar_producao (dbp : List Producao) (dbc : List Cultura)
    (uid producao_id : Nat) (dados : ProducaoCreate) (today : Nat) :
    Except Nat (List Producao × Producao) :=
  match dbp.find? (fun p => p.id == producao_id && p.usuario_id == uid) with
  | none => .error 404
  | some producao =>
      if dados.cultura_id != producao.cultura_id &&
          (dbc.find? (fun c => c.id == dados.cultura_id
              && c.usuario_id == uid)).isNone then .error 400
      else if dados.quantidade ≤ 0 then .error 400
      else if today < dados.data_colheita then .error 400
      else
        let updated := { producao with
          cultura_id := dados.cultura_id
          quantidade := dados.quantidade
          data_colheita := dados.data_colheita }
        .ok (replaceFirst (fun p => p.id == producao_id && p.usuario_id == uid)
               updated dbp, updated)

/-- `producao_service.excluir_producao`: ownership-scoped lookup (404 when
absent), then delete the found row. -/
def excluir_producao (dbp : List Producao) (uid producao_id : Nat) :
    Except Nat (List Producao) :=
  match dbp.find? (fun p => p.id == producao_id && p.usuario_id == uid) with
  | none => .error 404
  | some _ =>
      .ok (deleteFirst (fun p => p.id == producao_id && p.usuario_id == uid)
        dbp)

/-- `cultura_service.listar_culturas`: base query scoped by
`usuario_id == current_user["user_id"]`; optional name filter
(`if nome:`), matching `ilike "%nome.strip()%"`; pagination by
`offset(skip).limit(limit)`. -/
def listar_culturas (db : List Cultura) (uid : Nat) (nome : Option String)
    (skip limit : Nat) : List Cultura :=
  let q := db.filter (fun c => c.usuario_id == uid)
  let q := optFilter (fun n c => ilike c.nome (pyStrip n)) nome q
  (q.drop skip).take limit

/-- `estoque_service.listar_estoque`: scoped base query; optional partial
product and supplier matches (`if produto:` truthiness; an `ilike`
against a NULL supplier matches nothing); pagination. -/
def listar_estoque (db : List Estoque) (uid : Nat)
    (produto fornecedor : Option String) (skip limit : Nat) : List Estoque :=
  let q := db.filter (fun e => e.usuario_id == uid)
  let q := optFilter (fun s e => ilike e.produto_nome s) produto q
  let q := optFilter
    (fun s e => match e.fornecedor with
      | some f => ilike f s
      | none => false) fornecedor q
  (q.drop skip).take limit

/-! ## Statistics (`filtro_service.aplicar_filtros_producao`,
`stats_service.estatisticas_producao`) -/

/-- `filtro_service.aplicar_filtros_producao`: `date` objects are always
truthy, so `if data_inicial:` / `if data_final:` test presence;
`cultura_id` uses `is not None` explicitly. -/
def aplicar_filtros_producao (rows : List Producao)
    (data_inicial data_final cultura_id : Option Nat) : List Producao :=
  let rows := match data_inicial with
    | some d => rows.filter (fun p => d ≤ p.data_colheita)
    | none => rows
  let rows := match data_final with
    | some d => rows.filter (fun p => p.data_colheita ≤ d)
    | none => rows
  match cultura_id with
  | some c => rows.filter (fun p => p.cultura_id == c)
  | none => rows

/-- `producao_service.listar_producoes`: scoped base query, the optional
filters of `aplicar_filtros_producao`, `order_by(data_colheita.desc())`,
pagination. -/
def listar_producoes (db : List Producao) (uid : Nat)
    (data_inicial data_final cultura_id : Option Nat) (skip limit : Nat) :
    List Producao :=
  let q := db.filter (fun p => p.usuario_id == uid)
  let q := aplicar_filtros_producao q data_inicial data_final cultura_id
  let q := q.mergeSort (fun a b => decide (b.data_colheita ≤ a.data_colheita))
  (q.drop skip).take limit

/-- Python `round(x, 2)` (round half to even at two decimals), on ℚ. -/
def round2 (q : ℚ) : ℚ :=
  let x := q * 100
  let f := ⌊x⌋
  let r := x - f
  (if r < 1 / 2 then (f : ℚ)
   else if 1 / 2 < r then (f : ℚ) + 1
   else if f % 2 = 0 then (f : ℚ) else (f : ℚ) + 1) / 100

/-- Python `min(list)` on a list of quantities (0 for the never-taken empty
case). -/
def listMin : List ℚ → ℚ
  | [] => 0
  | x :: xs => xs.foldl min x

/-- Python `max(list)`. -/
def listMax : List ℚ → ℚ
  | [] => 0
  | x :: xs => xs.foldl max x

/-- The numeric fields of the `stats_service.estatisticas_producao`
response (the empty-case `mensagem` key is not modelled). -/
structure StatsOut where
  quantidade_registros : Nat
  soma_quantidade : ℚ
  media_quantidade : ℚ
  minimo_quantidade : ℚ
  maximo_quantidade : ℚ
deriving DecidableEq

/-- `stats_service.estatisticas_producao`: base query filtered by
`usuario_id == current_user["user_id"]`, then the optional filters; the
empty case returns all-zero aggregates, otherwise sum, mean = sum/count,
min and max of the quantities, rounded to two decimals. -/
def estatisticas_producao (db : List Producao) (uid : Nat)
    (data_inicial data_final cultura_id : Option Nat) : StatsOut :=
  let base := db.filter (fun p => p.usuario_id == uid)
  let dados := aplicar_filtros_producao base data_inicial data_final cultura_id
  if dados.isEmpty then
    { quantidade_registros := 0, soma_quantidade := 0, media_quantidade := 0,
      minimo_quantidade := 0, maximo_quantidade := 0 }
  else
    let quantidades := dados.map (fun p => p.quantidade)
    let soma := quantidades.sum
    let media := soma / (quantidades.length : ℚ)
    { quantidade_registros := quantidades.length
      soma_quantidade := round2 soma
      media_quantidade := round2 media
      minimo_quantidade := round2 (listMin quantidades)
      maximo_quantidade := round2 (listMax quantidades) }

/-! ## Shared lemmas -/

/-- Each 32-bit word renders as exactly 8 hex characters. -/
theorem hex8_length (v : Nat) : (hex8 v).length = 8 := by
  simp [hex8]

/-- The digest is always 64 characters, whatever the input. -/
theorem gerar_hash_length (s : String) : (gerar_hash s).length = 64 := by
  simp [gerar_hash, sha256hex, String.length, hex8_length, List.length_append]

/-- A token is always a member of the blacklist `logout` returns for it. -/
theorem mem_logout_fst (bl : List Token) (token : Token) :
    token ∈ (logout bl token).1 := by
  simp only [logout]
  split
  · assumption
  · exact List.mem_cons_self _ _

/-- An element not matched by `p` survives `replaceFirst` unchanged. -/
theorem mem_replaceFirst_of_neg {α : Type} (p : α → Bool) (v a : α)
    (l : List α) (ha : a ∈ l) (hp : ¬ p a = true) :
    a ∈ replaceFirst p v l := by
  induction l with
  | nil => cases ha
  | cons x xs ih =>
      rcases List.mem_cons.mp ha with rfl | hmem
      · simp only [replaceFirst]
        rw [if_neg hp]
        exact List.mem_cons_self _ _
      · simp only [replaceFirst]
        by_cases hx : p x = true
        · rw [if_pos hx]
          exact List.mem_cons_of_mem _ hmem
        · rw [if_neg hx]
          exact List.mem_cons_of_mem _ (ih hmem)

/-- An element not matched by `p` survives `deleteFirst`. -/
theorem mem_deleteFirst_of_neg {α : Type} (p : α → Bool) (a : α)
    (l : List α) (ha : a ∈ l) (hp : ¬ p a = true) :
    a ∈ deleteFirst p l := by
  induction l with
  | nil => cases ha
  | cons x xs ih =>
      rcases List.mem_cons.mp ha with rfl | hmem
      · simp only [deleteFirst]
        rw [if_neg hp]
        exact List.mem_cons_self _ _
      · simp only [deleteFirst]
        by_cases hx : p x = true
        · rw [if_pos hx]
          exact hmem
        · rw [if_neg hx]
          exact List.mem_cons_of_mem _ (ih hmem)

/-- An ownership-scoped `find?` returns nothing when every row carrying
the requested id belongs to another user. -/
theorem find?_owner_none {α : Type} (idf ownf : α → Nat) (db : List α)
    (xid uid : Nat) (h : ∀ x ∈ db, idf x = xid → ownf x ≠ uid) :
    db.find? (fun x => idf x == xid && ownf x == uid) = none := by
  rw [List.find?_eq_none]
  intro x hx
  simp only [Bool.and_eq_true, beq_iff_eq, not_and]
  intro hid
  exact h x hx hid

/-- `optFilter` only narrows the list. -/
theorem optFilter_subset {α : Type} (f : String → α → Bool)
    (o : Option String) (q : List α) : optFilter f o q ⊆ q := by
  rcases o with _ | s
  · exact fun x hx => hx
  · simp only [optFilter]
    by_cases hs : s = ""
    · rw [if_pos hs]
      exact fun x hx => hx
    · rw [if_neg hs]
      exact fun x hx => List.mem_of_mem_filter hx

/-- The optional production filters only narrow the list. -/
theorem aplicar_filtros_producao_subset (rows : List Producao)
    (di df cid : Option Nat) :
    aplicar_filtros_producao rows di df cid ⊆ rows := by
  intro x hx
  rcases di with _ | d1 <;> rcases df with _ | d2 <;> rcases cid with _ | c <;>
    simp only [aplicar_filtros_producao] at hx <;>
    first
      | exact hx
      | exact List.mem_of_mem_filter hx
      | exact List.mem_of_mem_filter (List.mem_of_mem_filter hx)
      | exact List.mem_of_mem_filter
          (List.mem_of_mem_filter (List.mem_of_mem_filter hx))

/-- A cultura returned by the scoped single read belongs to the
requester and carries the requested id. -/
theorem obter_cultura_ok_owner (dbc : List Cultura) (uid cid : Nat)
    (c : Cultura) (h : obter_cultura dbc uid cid = .ok c) :
    c.usuario_id = uid ∧ c.id = cid := by
  rcases hf : dbc.find? (fun x => x.id == cid && x.usuario_id == uid)
    with _ | c0
  · simp [obter_cultura, hf] at h
  · have hp := List.find?_some hf
    simp only [Bool.and_eq_true, beq_iff_eq] at hp
    simp [obter_cultura, hf] at h
    subst h
    exact ⟨hp.2, hp.1⟩

/-- Reading a cultura whose id only exists under other owners observes
404. -/
theorem obter_cultura_foreign_404 (dbc : List Cultura) (uid cid : Nat)
    (h : ∀ c ∈ dbc, c.id = cid → c.usuario_id ≠ uid) :
    obter_cultura dbc uid cid = .error 404 := by
  have hf :=
    find?_owner_none (fun c => c.id) (fun c => c.usuario_id) dbc cid uid h
  simp [obter_cultura, hf]

/-- A production record returned by the scoped single read belongs to the
requester and carries the requested id. -/
theorem obter_producao_ok_owner (dbp : List Producao) (uid pid : Nat)
    (p : Producao) (h : obter_producao dbp uid pid = .ok p) :
    p.usuario_id = uid ∧ p.id = pid := by
  rcases hf : dbp.find? (fun x => x.id == pid && x.usuario_id == uid)
    with _ | p0
  · simp [obter_producao, hf] at h
  · have hp := List.find?_some hf
    simp only [Bool.and_eq_true, beq_iff_eq] at hp
    simp [obter_producao, hf] at h
    subst h
    exact ⟨hp.2, hp.1⟩

/-- Reading a production record whose id only exists under other owners
observes 404. -/
theorem obter_producao_foreign_404 (dbp : List Producao) (uid pid : Nat)
    (h : ∀ p ∈ dbp, p.id = pid → p.usuario_id ≠ uid) :
    obter_producao dbp uid pid = .error 404 := by
  have hf :=
    find?_owner_none (fun p => p.id) (fun p => p.usuario_id) dbp pid uid h
  simp [obter_producao, hf]

/-- Every cultura the list endpoint returns belongs to the requester. -/
theorem listar_culturas_scoped (db : List Cultura) (uid : Nat)
    (nome : Option String) (skip limit : Nat) (c : Cultura)
    (hc : c ∈ listar_culturas db uid nome skip limit) :
    c.usuario_id = uid := by
  have hc' : c ∈ ((optFilter (fun n x => ilike x.nome (pyStrip n)) nome
      (db.filter (fun x => x.usuario_id == uid))).drop skip).take limit := hc
  have h1 := List.drop_subset _ _ (List.take_subset _ _ hc')
  have h2 := optFilter_subset _ _ _ h1
  simpa using (List.mem_filter.mp h2).2

/-- Every production record the list endpoint returns belongs to the
requester. -/
theorem listar_producoes_scoped (db : List Producao) (uid : Nat)
    (di df cid : Option Nat) (skip limit : Nat) (p : Producao)
    (hp : p ∈ listar_producoes db uid di df cid skip limit) :
    p.usuario_id = uid := by
  have hp' : p ∈ (((aplicar_filtros_producao
      (db.filter (fun x => x.usuario_id == uid)) di df cid).mergeSort
        (fun a b => decide (b.data_colheita ≤ a.data_colheita))).drop
          skip).take limit := hp
  have h1 := List.drop_subset _ _ (List.take_subset _ _ hp')
  rw [List.mem_mergeSort] at h1
  have h2 := aplicar_filtros_producao_subset _ di df cid h1
  simpa using (List.mem_filter.mp h2).2

/-- Every stock item the list endpoint returns belongs to the
requester. -/
theorem listar_estoque_scoped (db : List Estoque) (uid : Nat)
    (produto fornecedor : Option String) (skip limit : Nat) (e : Estoque)
    (he : e ∈ listar_estoque db uid produto fornecedor skip limit) :
    e.usuario_id = uid := by
  have he' : e ∈ ((optFilter
      (fun s x => match x.fornecedor with
        | some f => ilike f s
        | none => false) fornecedor
      (optFilter (fun s x => ilike x.produto_nome s) produto
        (db.filter (fun x => x.usuario_id == uid)))).drop skip).take
          limit := he
  have h1 := List.drop_subset _ _ (List.take_subset _ _ he')
  have h2 := optFilter_subset _ _ _ h1
  have h3 := optFilter_subset _ _ _ h2
  simpa using (List.mem_filter.mp h3).2

/-- A successful cultura rename touches only the requester's row: the
refreshed row belongs to the requester, and every row of another user
survives unchanged. -/
theorem atualizar_cultura_ok_owner (dbc : List Cultura) (uid cid : Nat)
    (nome : String) (db' : List Cultura) (c' : Cultura)
    (h : atualizar_cultura dbc uid cid nome = .ok (db', c')) :
    c'.usuario_id = uid ∧ ∀ c ∈ dbc, c.usuario_id ≠ uid → c ∈ db' := by
  rcases hf : dbc.find? (fun x => x.id == cid && x.usuario_id == uid)
    with _ | cultura
  · simp [atualizar_cultura, hf] at h
  · have hp := List.find?_some hf
    simp only [Bool.and_eq_true, beq_iff_eq] at hp
    simp only [atualizar_cultura, hf] at h
    split at h
    · simp at h
    · simp only [Except.ok.injEq, Prod.mk.injEq] at h
      rcases h with ⟨hdb, hc⟩
      refine ⟨by rw [← hc]; exact hp.2, ?_⟩
      intro c hcm hne
      rw [← hdb]
      refine mem_replaceFirst_of_neg _ _ _ _ hcm ?_
      simp only [Bool.and_eq_true, beq_iff_eq, not_and]
      intro _
      exact hne

/-- Renaming a cultura whose id only exists under other owners observes
404. -/
theorem atualizar_cultura_foreign_404 (dbc : List Cultura) (uid cid : Nat)
    (nome : String) (h : ∀ c ∈ dbc, c.id = cid → c.usuario_id ≠ uid) :
    atualizar_cultura dbc uid cid nome = .error 404 := by
  have hf :=
    find?_owner_none (fun c => c.id) (fun c => c.usuario_id) dbc cid uid h
  simp [atualizar_cultura, hf]

/-- A successful production update touches only the requester's row. -/
theorem atualizar_producao_ok_owner (dbp : List Producao)
    (dbc : List Cultura) (uid pid : Nat) (dados : ProducaoCreate)
    (today : Nat) (db' : List Producao) (p' : Producao)
    (h : atualizar_producao dbp dbc uid pid dados today = .ok (db', p')) :
    p'.usuario_id = uid ∧ ∀ p ∈ dbp, p.usuario_id ≠ uid → p ∈ db' := by
  rcases hf : dbp.find? (fun x => x.id == pid && x.usuario_id == uid)
    with _ | producao
  · simp [atualizar_producao, hf] at h
  · have hp := List.find?_some hf
    simp only [Bool.and_eq_true, beq_iff_eq] at hp
    simp only [atualizar_producao, hf] at h
    split at h
    · simp at h
    · split at h
      · simp at h
      · split at h
        · simp at h
        · simp only [Except.ok.injEq, Prod.mk.injEq] at h
          rcases h with ⟨hdb, hc⟩
          refine ⟨by rw [← hc]; exact hp.2, ?_⟩
          intro p hm hne
          rw [← hdb]
          refine mem_replaceFirst_of_neg _ _ _ _ hm ?_
          simp only [Bool.and_eq_true, beq_iff_eq, not_and]
          intro _
          exact hne

/-- Updating a production record whose id only exists under other owners
observes 404. -/
theorem atualizar_producao_foreign_404 (dbp : List Producao)
    (dbc : List Cultura) (uid pid : Nat) (dados : ProducaoCreate)
    (today : Nat) (h : ∀ p ∈ dbp, p.id = pid → p.usuario_id ≠ uid) :
    atualizar_producao dbp dbc uid pid dados today = .error 404 := by
  have hf :=
    find?_owner_none (fun p => p.id) (fun p => p.usuario_id) dbp pid uid h
  simp [atualizar_producao, hf]

/-- A successful stock update touches only the requester's row. -/
theorem atualizar_item_ok_owner (dbe : List Estoque) (uid iid : Nat)
    (dados : EstoqueCreate) (db' : List Estoque) (item' : Estoque)
    (h : atualizar_item dbe uid iid dados = .ok (db', item')) :
    item'.usuario_id = uid ∧ ∀ e ∈ dbe, e.usuario_id ≠ uid → e ∈ db' := by
  rcases hf : dbe.find? (fun x => x.id == iid && x.usuario_id == uid)
    with _ | item
  · simp [atualizar_item, hf] at h
  · have hp := List.find?_some hf
    simp only [Bool.and_eq_true, beq_iff_eq] at hp
    simp [atualizar_item, hf] at h
    rcases h with ⟨hdb, hitem⟩
    constructor
    · rw [← hitem]
      exact hp.2
    · intro e he hne
      rw [← hdb]
      refine mem_replaceFirst_of_neg _ _ _ _ he ?_
      simp only [Bool.and_eq_true, beq_iff_eq, not_and]
      intro _
      exact hne

/-- Updating a stock item whose id only exists under other owners observes
404. -/
theorem atualizar_item_foreign_404 (dbe : List Estoque) (uid iid : Nat)
    (dados : EstoqueCreate)
    (h : ∀ e ∈ dbe, e.id = iid → e.usuario_id ≠ uid) :
    atualizar_item dbe uid iid dados = .error 404 := by
  have hf :=
    find?_owner_none (fun e => e.id) (fun e => e.usuario_id) dbe iid uid h
  simp [atualizar_item, hf]

/-- A successful cultura deletion removes only the requester's row. -/
theorem excluir_cultura_ok_owner (dbc : List Cultura) (dbp : List Producao)
    (uid cid : Nat) (db' : List Cultura)
    (h : excluir_cultura dbc dbp uid cid = .ok db') :
    ∀ c ∈ dbc, c.usuario_id ≠ uid → c ∈ db' := by
  intro c hc hne
  rcases hf : dbc.find? (fun x => x.id == cid && x.usuario_id == uid)
    with _ | cultura
  · simp [excluir_cultura, hf] at h
  · simp only [excluir_cultura, hf] at h
    split at h
    · simp at h
    · simp only [Except.ok.injEq] at h
      rw [← h]
      refine mem_deleteFirst_of_neg _ _ _ hc ?_
      simp only [Bool.and_eq_true, beq_iff_eq, not_and]
      intro _
      exact hne

/-- Deleting a cultura whose id only exists under other owners observes
404. -/
theorem excluir_cultura_foreign_404 (dbc : List Cultura)
    (dbp : List Producao) (uid cid : Nat)
    (h : ∀ c ∈ dbc, c.id = cid → c.usuario_id ≠ uid) :
    excluir_cultura dbc dbp uid cid = .error 404 := by
  have hf :=
    find?_owner_none (fun c => c.id) (fun c => c.usuario_id) dbc cid uid h
  simp [excluir_cultura, hf]

/-- A successful production deletion removes only the requester's row. -/
theorem excluir_producao_ok_owner (dbp : List Producao) (uid pid : Nat)
    (db' : List Producao) (h : excluir_producao dbp uid pid = .ok db') :
    ∀ p ∈ dbp, p.usuario_id ≠ uid → p ∈ db' := by
  intro p hp hne
  rcases hf : dbp.find? (fun x => x.id == pid && x.usuario_id == uid)
    with _ | p0
  · simp [excluir_producao, hf] at h
  · simp [excluir_producao, hf] at h
    rw [← h]
    refine mem_deleteFirst_of_neg _ _ _ hp ?_
    simp only [Bool.and_eq_true, beq_iff_eq, not_and]
    intro _
    exact hne

/-- Deleting a production record whose id only exists under other owners
observes 404. -/
theorem excluir_producao_foreign_404 (dbp : List Producao) (uid pid : Nat)
    (h : ∀ p ∈ dbp, p.id = pid → p.usuario_id ≠ uid) :
    excluir_producao dbp uid pid = .error 404 := by
  have hf :=
    find?_owner_none (fun p => p.id) (fun p => p.usuario_id) dbp pid uid h
  simp [excluir_producao, hf]

/-- A successful stock deletion removes only the requester's row. -/
theorem deletar_item_ok_owner (dbe : List Estoque) (uid iid : Nat)
    (db' : List Estoque) (h : deletar_item dbe uid iid = .ok db') :
    ∀ e ∈ dbe, e.usuario_id ≠ uid → e ∈ db' := by
  intro e he hne
  rcases hf : dbe.find? (fun x => x.id == iid && x.usuario_id == uid)
    with _ | item
  · simp [deletar_item, hf] at h
  · simp [deletar_item, hf] at h
    rw [← h]
    refine mem_deleteFirst_of_neg _ _ _ he ?_
    simp only [Bool.and_eq_true, beq_iff_eq, not_and]
    intro _
    exact hne

/-- Deleting a stock item whose id only exists under other owners observes
404. -/
theorem deletar_item_foreign_404 (dbe : List Estoque) (uid iid : Nat)
    (h : ∀ e ∈ dbe, e.id = iid → e.usuario_id ≠ uid) :
    deletar_item dbe uid iid = .error 404 := by
  have hf :=
    find?_owner_none (fun e => e.id) (fun e => e.usuario_id) dbe iid uid h
  simp [deletar_item, hf]

/-! ## Claims -/

/-- C1: for every token `t` and every time `now`, after `revoke(t)`
(`logout`, which adds `t` to the blacklist) has been called,
`verify(t, now)` fails with `InvalidToken` — whatever the expiry,
signature or claim contents of `t` — because the blacklist membership
check is the first check `verify_token` performs. -/
theorem revoked_token_always_invalid (secret : String) (bl : List Token)
    (token : Token) (now : Nat) :
    verify_token secret (logout bl token).1 token now
      = .error .InvalidToken := by
  rw [verify_token, if_pos (mem_logout_fst bl token)]

/-- C8: revoking the same token twice yields exactly the post-state (and
success message) of revoking it once; the second call is a no-op that
still reports the success message. -/
theorem revoke_idempotent (bl : List Token) (token : Token) :
    logout (logout bl token).1 token = logout bl token ∧
    (logout (logout bl token).1 token).2
      = "Logout realizado com sucesso." := by
  constructor
  · have h := mem_logout_fst bl token
    simp only [logout] at h ⊢
    rw [if_pos h]
  · simp [logout]

/-- C9: the password hash is a deterministic function of the plaintext and
its digest always has length 64 (the SHA-256 hex digest), regardless of
the input length. -/
theorem hash_deterministic_fixed_length (p : String) :
    gerar_hash p = gerar_hash p ∧ (gerar_hash p).length = 64 :=
  ⟨rfl, gerar_hash_length p⟩

/-- C3 (amended): for every non-empty email, every NONZERO user id, every
issuance time `t0` and every lifetime greater than one second, verifying
an unrevoked token freshly issued for `(email, id)` at `t0` succeeds at
`t0 + 1` and returns exactly that pair.  (Zero ids are rejected by the
Python truthiness test `if not user_id`, see the counterexample.) -/
theorem issue_then_verify (secret : String) (bl : List Token)
    (email : String) (uid : Nat) (t0 L : Nat)
    (hemail : email ≠ "") (huid : uid ≠ 0) (hL : 1 < L)
    (hbl : create_access_token secret t0 L email uid ∉ bl) :
    verify_token secret bl (create_access_token secret t0 L email uid)
      (t0 + 1) = .ok { email := email, user_id := uid } := by
  have hexp : ¬ (t0 + L ≤ t0 + 1) := by omega
  simp only [create_access_token, mkSignature] at hbl
  simp [verify_token, create_access_token, mkSignature, hbl, hemail, huid,
    hexp]

/-- Witness for C3: issue at `t0 = 0` with lifetime 2 s for
`("a", 1)`, verify at time 1. -/
theorem issue_then_verify_witness :
    verify_token "k" [] (create_access_token "k" 0 2 "a" 1) (0 + 1)
      = .ok { email := "a", user_id := 1 } :=
  issue_then_verify "k" [] "a" 1 0 2 (by decide) (by decide) (by decide)
    (by simp)

/-- C3 counterexample: the claim as stated quantifies over EVERY user id,
but a freshly issued token for id 0 (all other hypotheses of the claim
holding) is rejected as `InvalidToken`, because `verify_token` implements
Python `if not email or not user_id`, which treats the integer 0 as
missing. -/
theorem issue_then_verify_zero_id_cex :
    ("a" : String) ≠ "" ∧ 1 < 2 ∧
    create_access_token "k" 0 2 "a" 0 ∉ ([] : List Token) ∧
    verify_token "k" [] (create_access_token "k" 0 2 "a" 0) (0 + 1)
      = .error .InvalidToken := by
  refine ⟨by decide, by decide, by simp, ?_⟩
  simp [verify_token, create_access_token, mkSignature]

/-- C4: for every unrevoked, signature-valid token, `verify` fails with
`ExpiredToken` exactly when `now >= exp` (PyJWT rejects iff `exp <= now`);
the claim's instance — an issued token verified at `t0 + L + 1` — is the
witness. -/
theorem expired_iff_past_expiry (secret : String) (bl : List Token)
    (token : Token) (now : Nat) (hbl : token ∉ bl)
    (hsig : token.sig = mkSignature secret token.claims) :
    verify_token secret bl token now = .error .ExpiredToken ↔
      token.claims.exp ≤ now := by
  unfold verify_token
  rw [if_neg hbl, if_neg (by simp [hsig])]
  constructor
  · intro h
    by_contra hexp
    rw [if_neg hexp] at h
    split at h
    · split at h <;> simp_all
    · simp_all
  · intro hexp
    rw [if_pos hexp]

/-- Witness for C4: a token issued at `t0 = 0` with lifetime 5 s, verified
at `t0 + 5 + 1 = 6`, fails with `ExpiredToken`. -/
theorem expired_iff_past_expiry_witness :
    verify_token "k" [] (create_access_token "k" 0 5 "a" 1) 6
      = .error .ExpiredToken :=
  (expired_iff_past_expiry "k" [] (create_access_token "k" 0 5 "a" 1) 6
      (by simp) rfl).mpr (by decide)

/-- C5 (amended): for every unrevoked, signature-valid, unexpired token,
`verify` fails with `InvalidToken` if either identity claim is absent —
or carries the Python-falsy values `""` (email) or `0` (id), which
`if not email or not user_id` cannot distinguish from absence — and
succeeds with exactly the two identity fields whenever `sub` is a
non-empty string and `user_id` a nonzero integer. -/
theorem completeness_check (secret : String) (bl : List Token)
    (token : Token) (now : Nat) (hbl : token ∉ bl)
    (hsig : token.sig = mkSignature secret token.claims)
    (hexp : now < token.claims.exp) :
    ((token.claims.sub = none ∨ token.claims.user_id = none ∨
      token.claims.sub = some "" ∨ token.claims.user_id = some 0) →
        verify_token secret bl token now = .error .InvalidToken) ∧
    (∀ email uid, token.claims.sub = some email →
        token.claims.user_id = some uid → email ≠ "" → uid ≠ 0 →
        verify_token secret bl token now
          = .ok { email := email, user_id := uid }) := by
  have hexp' : ¬ (token.claims.exp ≤ now) := by omega
  constructor
  · intro hmiss
    unfold verify_token
    rw [if_neg hbl, if_neg (by simp [hsig]), if_neg hexp']
    rcases hs : token.claims.sub with _ | email
    · simp
    · rcases hu : token.claims.user_id with _ | uid
      · simp
      · rw [hs, hu] at hmiss
        have hcond : email = "" ∨ uid = 0 := by
          rcases hmiss with h | h | h | h
          · cases h
          · cases h
          · exact Or.inl (Option.some.inj h)
          · exact Or.inr (Option.some.inj h)
        rcases hcond with h | h <;> simp [h]
  · intro email uid hs hu hemail huid
    unfold verify_token
    rw [if_neg hbl, if_neg (by simp [hsig]), if_neg hexp', hs, hu]
    simp [hemail, huid]

/-- Witness for C5 (amended): a well-formed token for `("a", 1)` with
expiry 10 verifies at time 0 to exactly those fields. -/
theorem completeness_check_witness :
    verify_token "k" []
      { claims := { sub := some "a", user_id := some 1, exp := 10 },
        sig := ("k", { sub := some "a", user_id := some 1, exp := 10 }) } 0
      = .ok { email := "a", user_id := 1 } :=
  (completeness_check "k" []
      { claims := { sub := some "a", user_id := some 1, exp := 10 },
        sig := ("k", { sub := some "a", user_id := some 1, exp := 10 }) } 0
      (by simp) rfl (by decide)).2 "a" 1 rfl rfl (by decide) (by decide)

/-- C5 counterexample: an unrevoked, signature-valid, unexpired token in
which BOTH identity claims are present (`sub = ""`, `user_id = 1`) is
nonetheless rejected as `InvalidToken`, refuting "whenever both claims
are present, verify succeeds": Python's `if not email` conflates a
present-but-empty email with an absent one. -/
theorem completeness_check_cex :
    ({ claims := { sub := some "", user_id := some 1, exp := 10 },
       sig := ("k", { sub := some "", user_id := some 1, exp := 10 }) }
        : Token) ∉ ([] : List Token) ∧
    (some "" ≠ (none : Option String)) ∧
    (some 1 ≠ (none : Option Nat)) ∧
    verify_token "k" []
      { claims := { sub := some "", user_id := some 1, exp := 10 },
        sig := ("k", { sub := some "", user_id := some 1, exp := 10 }) } 0
      = .error .InvalidToken := by
  refine ⟨by simp, by simp, by simp, ?_⟩
  simp [verify_token, mkSignature]

/-- C6: a token whose signature was produced with a different signing
secret than the configured one always fails `verify` with `InvalidToken`
(when not blacklisted), whatever its claims and whatever the time. -/
theorem wrong_secret_invalid (secret secret2 : String) (bl : List Token)
    (c : Claims) (now : Nat) (hne : secret2 ≠ secret)
    (hbl : ({ claims := c, sig := mkSignature secret2 c } : Token) ∉ bl) :
    verify_token secret bl { claims := c, sig := mkSignature secret2 c } now
      = .error .InvalidToken := by
  unfold verify_token
  rw [if_neg hbl, if_pos]
  simp [mkSignature, hne]

/-- Witness for C6: a token for `("a", 1)` signed with `"j"` is rejected
by a verifier configured with `"k"`, inside its validity window. -/
theorem wrong_secret_invalid_witness :
    verify_token "k" []
      { claims := { sub := some "a", user_id := some 1, exp := 10 },
        sig := mkSignature "j" { sub := some "a", user_id := some 1, exp := 10 } }
      0 = .error .InvalidToken :=
  wrong_secret_invalid "k" "j" [] { sub := some "a", user_id := some 1, exp := 10 }
    0 (by decide) (by simp)

/-- C7: for every submitted email and incorrect password, login fails with
the same generic unauthorized outcome `"Credenciais incorretas"` whether
the email is unknown (`db1`) or known with a non-matching password hash
(`db2`): the two observable responses are identical. -/
theorem login_indistinguishable (secret : String) (now lifetime : Nat)
    (db1 db2 : List Usuario) (email senha : String)
    (h1 : ∀ u ∈ db1, u.email ≠ email)
    (h2 : ∀ u, db2.find? (fun v => v.email == email) = some u →
        u.senha ≠ gerar_hash senha) :
    login secret now lifetime db1 email senha
      = .unauthorized "Credenciais incorretas" ∧
    login secret now lifetime db1 email senha
      = login secret now lifetime db2 email senha := by
  have hfind : db1.find? (fun u => u.email == email) = none := by
    rw [List.find?_eq_none]
    intro u hu
    simp [h1 u hu]
  have hl1 : login secret now lifetime db1 email senha
      = .unauthorized "Credenciais incorretas" := by
    simp [login, authenticate_user, hfind]
  refine ⟨hl1, ?_⟩
  rw [hl1]
  rcases hfind2 : db2.find? (fun v => v.email == email) with _ | u
  · simp [login, authenticate_user, hfind2]
  · simp [login, authenticate_user, hfind2, h2 u hfind2]

/-- Witness for C7: an empty user table and a table holding
`a@x.com` with stored digest `"zz"` (which no password hashes to, since
digests have 64 characters) produce the same unauthorized response. -/
theorem login_indistinguishable_witness :
    login "k" 0 60 [] "a@x.com" "pw"
      = .unauthorized "Credenciais incorretas" ∧
    login "k" 0 60 [] "a@x.com" "pw"
      = login "k" 0 60 [⟨1, "n", "c", "a@x.com", "zz"⟩] "a@x.com" "pw" :=
  login_indistinguishable "k" 0 60 [] [⟨1, "n", "c", "a@x.com", "zz"⟩]
    "a@x.com" "pw" (by simp)
    (by
      intro u hu
      simp [List.find?] at hu
      subst hu
      intro h
      have hlen := congrArg String.length h
      rw [gerar_hash_length] at hlen
      exact absurd hlen (by decide))

/-- C2: every read, modify and delete operation the service exposes over
cultures, production records and stock items is scoped by the identity
resolved from the verified token: single reads return only rows owned by
the requester (and observe 404 when the requested id exists only under
other owners); list reads return only the requester's rows; updates
refresh only the requester's row, leave every other user's row unchanged,
and observe 404 on foreign-owned ids; deletes remove only the requester's
row and observe 404 on foreign-owned ids. -/
theorem owner_scoping (dbc : List Cultura) (dbp : List Producao)
    (dbe : List Estoque) (uid cid pid iid : Nat) (nome : String)
    (dadosP : ProducaoCreate) (dadosE : EstoqueCreate)
    (nomeF prodF fornF : Option String) (di df cidF : Option Nat)
    (skip limit today : Nat) :
    (∀ c, obter_cultura dbc uid cid = .ok c →
        c.usuario_id = uid ∧ c.id = cid) ∧
    ((∀ c ∈ dbc, c.id = cid → c.usuario_id ≠ uid) →
        obter_cultura dbc uid cid = .error 404) ∧
    (∀ p, obter_producao dbp uid pid = .ok p →
        p.usuario_id = uid ∧ p.id = pid) ∧
    ((∀ p ∈ dbp, p.id = pid → p.usuario_id ≠ uid) →
        obter_producao dbp uid pid = .error 404) ∧
    (∀ c ∈ listar_culturas dbc uid nomeF skip limit,
        c.usuario_id = uid) ∧
    (∀ p ∈ listar_producoes dbp uid di df cidF skip limit,
        p.usuario_id = uid) ∧
    (∀ e ∈ listar_estoque dbe uid prodF fornF skip limit,
        e.usuario_id = uid) ∧
    (∀ db' c', atualizar_cultura dbc uid cid nome = .ok (db', c') →
        c'.usuario_id = uid ∧ ∀ c ∈ dbc, c.usuario_id ≠ uid → c ∈ db') ∧
    ((∀ c ∈ dbc, c.id = cid → c.usuario_id ≠ uid) →
        atualizar_cultura dbc uid cid nome = .error 404) ∧
    (∀ db' p', atualizar_producao dbp dbc uid pid dadosP today
          = .ok (db', p') →
        p'.usuario_id = uid ∧ ∀ p ∈ dbp, p.usuario_id ≠ uid → p ∈ db') ∧
    ((∀ p ∈ dbp, p.id = pid → p.usuario_id ≠ uid) →
        atualizar_producao dbp dbc uid pid dadosP today = .error 404) ∧
    (∀ db' item', atualizar_item dbe uid iid dadosE = .ok (db', item') →
        item'.usuario_id = uid ∧
        ∀ e ∈ dbe, e.usuario_id ≠ uid → e ∈ db') ∧
    ((∀ e ∈ dbe, e.id = iid → e.usuario_id ≠ uid) →
        atualizar_item dbe uid iid dadosE = .error 404) ∧
    (∀ db', excluir_cultura dbc dbp uid cid = .ok db' →
        ∀ c ∈ dbc, c.usuario_id ≠ uid → c ∈ db') ∧
    ((∀ c ∈ dbc, c.id = cid → c.usuario_id ≠ uid) →
        excluir_cultura dbc dbp uid cid = .error 404) ∧
    (∀ db', excluir_producao dbp uid pid = .ok db' →
        ∀ p ∈ dbp, p.usuario_id ≠ uid → p ∈ db') ∧
    ((∀ p ∈ dbp, p.id = pid → p.usuario_id ≠ uid) →
        excluir_producao dbp uid pid = .error 404) ∧
    (∀ db', deletar_item dbe uid iid = .ok db' →
        ∀ e ∈ dbe, e.usuario_id ≠ uid → e ∈ db') ∧
    ((∀ e ∈ dbe, e.id = iid → e.usuario_id ≠ uid) →
        deletar_item dbe uid iid = .error 404) := by
  refine ⟨fun c => obter_cultura_ok_owner dbc uid cid c,
    obter_cultura_foreign_404 dbc uid cid,
    fun p => obter_producao_ok_owner dbp uid pid p,
    obter_producao_foreign_404 dbp uid pid,
    fun c hc => listar_culturas_scoped dbc uid nomeF skip limit c hc,
    fun p hp => listar_producoes_scoped dbp uid di df cidF skip limit p hp,
    fun e he => listar_estoque_scoped dbe uid prodF fornF skip limit e he,
    fun db' c' => atualizar_cultura_ok_owner dbc uid cid nome db' c',
    atualizar_cultura_foreign_404 dbc uid cid nome,
    fun db' p' =>
      atualizar_producao_ok_owner dbp dbc uid pid dadosP today db' p',
    atualizar_producao_foreign_404 dbp dbc uid pid dadosP today,
    fun db' item' => atualizar_item_ok_owner dbe uid iid dadosE db' item',
    atualizar_item_foreign_404 dbe uid iid dadosE,
    fun db' => excluir_cultura_ok_owner dbc dbp uid cid db',
    excluir_cultura_foreign_404 dbc dbp uid cid,
    fun db' => excluir_producao_ok_owner dbp uid pid db',
    excluir_producao_foreign_404 dbp uid pid,
    fun db' => deletar_item_ok_owner dbe uid iid db',
    deletar_item_foreign_404 dbe uid iid⟩

/-- Witness for C2: user 1 requests cultura 5, which belongs to user 99 —
the lookup observes 404. -/
theorem owner_scoping_witness :
    obter_cultura [⟨5, "soja", none, 99⟩] 1 5 = .error 404 :=
  (owner_scoping [⟨5, "soja", none, 99⟩] [] [] 1 5 0 0 "x" ⟨1, 1, 0⟩
      ⟨"p", 1, none, none⟩ none none none none none none 0 10 0).2.1
    (by decide)

/-- C10: the statistics endpoint never divides by zero: an empty filtered
record set yields count 0 and all-zero aggregates; a non-empty one yields
a positive divisor, a reported count equal to the number of filtered
records, and a mean computed as sum divided by that count. -/
theorem stats_no_div_by_zero (db : List Producao) (uid : Nat)
    (di df cid : Option Nat) :
    (aplicar_filtros_producao (db.filter (fun p => p.usuario_id == uid))
        di df cid = [] →
      estatisticas_producao db uid di df cid
        = { quantidade_registros := 0, soma_quantidade := 0,
            media_quantidade := 0, minimo_quantidade := 0,
            maximo_quantidade := 0 }) ∧
    (∀ dados,
      aplicar_filtros_producao (db.filter (fun p => p.usuario_id == uid))
          di df cid = dados →
      dados ≠ [] →
      (estatisticas_producao db uid di df cid).quantidade_registros
          = dados.length ∧
      0 < dados.length ∧
      (estatisticas_producao db uid di df cid).media_quantidade
        = round2 ((dados.map (fun p => p.quantidade)).sum
            / (dados.length : ℚ))) := by
  constructor
  · intro h
    simp [estatisticas_producao, h]
  · intro dados hd hne
    have hlen : 0 < dados.length := List.length_pos.mpr hne
    refine ⟨?_, hlen, ?_⟩ <;>
    · simp only [estatisticas_producao, hd]
      rcases dados with _ | ⟨x, xs⟩
      · exact absurd rfl hne
      · simp [List.length_map]

/-- Witness for C10: the empty table yields the all-zero response, and a
single production record of 5 units for user 7 yields count 1. -/
theorem stats_no_div_by_zero_witness :
    estatisticas_producao [] 0 none none none
      = { quantidade_registros := 0, soma_quantidade := 0,
          media_quantidade := 0, minimo_quantidade := 0,
          maximo_quantidade := 0 } ∧
    (estatisticas_producao [⟨1, 7, 2, 5, 100⟩] 7 none none none).quantidade_registros
      = 1 :=
  ⟨(stats_no_div_by_zero [] 0 none none none).1 rfl,
   ((stats_no_div_by_zero [⟨1, 7, 2, 5, 100⟩] 7 none none none).2
      [⟨1, 7, 2, 5, 100⟩] rfl (by simp)).1⟩
